import Mathlib

/-!
Shallow embedding of the Scenic MetaDrive adapter
(`src/scenic/simulators/metadrive/simulator.py`) and verification of the
spec's claims about it.

Modelling conventions:
* Python floats are modelled as exact rationals (`ℚ`) except where the code
  manipulates genuinely real quantities (`math.pi` in heading conversions,
  `math.hypot` in `getProperties`), which are modelled over `ℝ`.
* MetaDrive positions and velocities are planar pairs; Scenic `Vector`s are
  triples.
* The external MetaDrive engine (session construction, reset, spawning,
  stepping, closing) is an external collaborator; its visible effects are
  recorded as explicit call traces and state fields, following the calls the
  adapter makes.
* Fallible Python code (raised exceptions, `KeyError`, `AttributeError`)
  is modelled with `Except`.
-/

namespace ScenicMetaDrive

/-- A planar point or vector, as used on the MetaDrive side of the interface
(and for Scenic object positions, whose third coordinate the adapter never
touches). -/
structure Vec2 where
  x : ℚ
  y : ℚ
deriving DecidableEq, Repr

/-- A Scenic `Vector`: a 3-component vector. -/
structure Vec3 where
  x : ℚ
  y : ℚ
  z : ℚ
deriving DecidableEq, Repr

/-- Errors raised by the adapter (each constructor names the Python
exception class it models). -/
inductive SimError where
  /-- `scenic.core.simulators.InvalidScenarioError` -/
  | invalidScenario (msg : String)
  /-- `scenic.core.simulators.SimulationCreationError` -/
  | simulationCreation (msg : String)
  /-- Python `ModuleNotFoundError` -/
  | moduleNotFound (msg : String)
  /-- Python `ImportError` (a bare import failure) -/
  | importError (msg : String)
  /-- Python `KeyError` on a dict lookup, recording the missing key -/
  | keyError (key : Nat)
  /-- Python `AttributeError` (attribute access on `None`) -/
  | attributeError
deriving DecidableEq, Repr

/-! ### Coordinate conversions (`scenic.simulators.metadrive.utils`)

Modelled from the spec: the `utils` module is part of this repository but not
under `src/`; only its callers are. The spec describes the adapter as
translating coordinate frames and headings between the two systems and states
that the conversions round-trip, so the position conversions are modelled as
translation by the map offset and the heading conversions as a quarter-turn
shift (Scenic headings are measured from north, MetaDrive's `heading_theta`
from the x-axis). -/

/-- Modelled from the spec: `utils.scenicToMetaDrivePosition` — convert a
Scenic position to MetaDrive coordinates by removing the map offset. -/
def scenicToMetaDrivePosition (p : Vec2) (offset : Vec2) : Vec2 :=
  ⟨p.x - offset.x, p.y - offset.y⟩

/-- Modelled from the spec: `utils.metadriveToScenicPosition` — convert a
MetaDrive position to Scenic coordinates by restoring the map offset. -/
def metadriveToScenicPosition (q : Vec2) (offset : Vec2) : Vec2 :=
  ⟨q.x + offset.x, q.y + offset.y⟩

/-- Modelled from the spec: `utils.scenicToMetaDriveHeading` — shift a Scenic
heading into MetaDrive's heading convention by a quarter turn. -/
noncomputable def scenicToMetaDriveHeading (h : ℝ) : ℝ :=
  h + Real.pi / 2

/-- Modelled from the spec: `utils.metaDriveToScenicHeading` — shift a
MetaDrive heading back into Scenic's heading convention. -/
noncomputable def metaDriveToScenicHeading (h : ℝ) : ℝ :=
  h - Real.pi / 2

/-! ### Timestep derivation (`createObjectInSimulator`, ego branch)

`decision_repeat = math.ceil(self.timestep / 0.02)` and
`physics_world_step_size = self.timestep / decision_repeat`. -/

/-- `decision_repeat = math.ceil(self.timestep / 0.02)` from
`createObjectInSimulator`. -/
def decision_repeat (timestep : ℚ) : ℤ :=
  Int.ceil (timestep / (2 / 100))

/-- `physics_world_step_size = self.timestep / decision_repeat` from
`createObjectInSimulator`. -/
def physics_world_step_size (timestep : ℚ) : ℚ :=
  timestep / (decision_repeat timestep : ℚ)

/-! ### The data model -/

/-- A MetaDrive actor as the adapter reads it: the kinematic state and crash
flags accessed in `getProperties` and `get_reward`, plus the engine id under
which it was registered.  `heading_theta` is real-valued (headings involve
`π`); the angular velocity `body.getAngularVelocity()` is a triple. -/
structure Actor where
  id : Nat
  position : Vec2
  last_position : Vec2
  velocity : Vec2
  speed : ℚ
  heading_theta : ℝ
  angular_velocity : ℚ × ℚ × ℚ
  crash_vehicle : Bool
  crash_object : Bool
  crash_sidewalk : Bool

/-- The centerline of a lane, exposing the one operation `get_reward` uses:
`signedDistanceTo`. Its geometry lives in Scenic's driving domain, outside
this adapter, so the signed-distance map is kept abstract as a function. -/
structure Centerline where
  signedDistanceTo : Vec2 → ℚ

/-- A Scenic lane, as accessed by `get_reward` (`ego._lane.centerline`). -/
structure Lane where
  centerline : Centerline

/-- A Scenic road, as accessed by `get_reward`; `forwardLanes` is truthy
iff the road has forward lanes (Python truthiness of the lane group is
modelled as a Bool). -/
structure Road where
  forwardLanes : Bool

/-- A Scenic scene object, restricted to the attributes this adapter reads
and writes: classification flags, pose, velocity and speed, the driving-domain
lane/road annotations used by `get_reward`, the parent orientation's
`globalToLocalAngles` map used by `getProperties` (kept abstract as a
function on Euler angles), and the `metaDriveActor` reference the adapter
assigns. -/
structure SceneObject where
  isCar : Bool
  isVehicle : Bool
  isPedestrian : Bool
  position : Vec2
  heading : ℝ
  velocity : Vec2
  speed : ℚ
  lane : Option Lane
  road : Option Road
  parentOrientation : ℝ → ℝ → ℝ → ℝ × ℝ × ℝ
  metaDriveActor : Option Actor

/-- A Scenic scene: the list of scenario objects (`scene.objects`). -/
structure Scene where
  objects : List SceneObject

/-- The engine state visible to the adapter: the registry of spawned object
ids (`engine._spawned_objects`) and a counter for fresh ids. -/
structure Engine where
  spawned_objects : List Nat
  next_id : Nat

/-- The external MetaDrive session handle (`utils.DriveEnv`): the derived
timestep configuration passed at construction, the `sumo_map` config entry,
and the engine, which becomes `None` once the session is closed. -/
structure Client where
  decision_repeat : ℤ
  physics_world_step_size : ℚ
  sumo_map : Option String
  engine : Option Engine

/-- The state of a `MetaDriveSimulation`: the fields assigned in
`__init__` (lines 96–111 of the source). -/
structure SimState where
  scene : Scene
  render : Bool
  render3D : Bool
  scenario_number : Nat
  defined_ego : Bool
  client : Option Client
  timestep : ℚ
  sumo_map : Option String
  real_time : Bool
  scenic_offset : Vec2
  sumo_map_boundary : Option (Vec2 × Vec2)
  film_size : Option (ℚ × ℚ)
  observation : List ℚ
  /-- `self.actions = dict()`: the per-step action store, a dict from
  component index to control value, modelled as an association list. -/
  actions : List (Nat × ℚ)
  previous_gap_platoon1 : Option ℚ
  previous_gap_platoon2 : Option ℚ

/-- `MetaDriveSimulation.__init__`: validate the scene (at least one object;
the first must be a car), then assign the instance fields.  Both
`InvalidScenarioError`s are raised before any field assignment and before
`super().__init__` runs the simulation setup, so on the error paths no
external session exists and `self.client` is never initialized; on success
`client` starts as `None` (line 100) and the session is only created later by
`createObjectInSimulator`. -/
def initSimulation (scene : Scene) (render render3D : Bool)
    (scenario_number : Nat) (timestep : ℚ) (sumo_map : Option String)
    (real_time : Bool) (scenic_offset : Vec2)
    (sumo_map_boundary : Option (Vec2 × Vec2)) (film_size : Option (ℚ × ℚ)) :
    Except SimError SimState :=
  match scene.objects with
  | [] =>
    .error (.invalidScenario
      "Metadrive requires you to define at least one Scenic object.")
  | o :: _ =>
    if o.isCar then
      .ok
        { scene := scene
          render := render
          render3D := render3D
          scenario_number := scenario_number
          defined_ego := false
          client := none
          timestep := timestep
          sumo_map := sumo_map
          real_time := real_time
          scenic_offset := scenic_offset
          sumo_map_boundary := sumo_map_boundary
          film_size := film_size
          observation := []
          actions := []
          previous_gap_platoon1 := none
          previous_gap_platoon2 := none }
    else
      .error (.invalidScenario
        "The first object must be a car to serve as the ego vehicle in Metadrive.")

/-- `MetaDriveSimulation.createObjectInSimulator`.  The first object
initializes the external session (a `utils.DriveEnv` built from the derived
timestep parameters), resets it, and takes the engine's first object as the
ego actor; later vehicles and pedestrians are spawned through the engine's
agent manager; any other object type raises `SimulationCreationError`.
The external engine's spawn calls are modelled as registering a fresh id and
returning an actor at the requested pose (additional vehicles spawn with
`spawn_velocity = [0, 0]` as in the source); on the non-ego paths the Python
attribute chain `self.client.engine` fails with `AttributeError` when the
client or engine is gone.  Returns the updated simulation state together
with the updated object (the source mutates `obj.metaDriveActor`). -/
noncomputable def createObjectInSimulator (s : SimState) (obj : SceneObject) :
    Except SimError (SimState × SceneObject) :=
  let converted_position := scenicToMetaDrivePosition obj.position s.scenic_offset
  let converted_heading := scenicToMetaDriveHeading obj.heading
  if s.defined_ego = false then
    let egoActor : Actor :=
      { id := 0
        position := converted_position
        last_position := converted_position
        velocity := if obj.isVehicle then obj.velocity else ⟨0, 0⟩
        speed := 0
        heading_theta := converted_heading
        angular_velocity := (0, 0, 0)
        crash_vehicle := false
        crash_object := false
        crash_sidewalk := false }
    let client : Client :=
      { decision_repeat := decision_repeat s.timestep
        physics_world_step_size := physics_world_step_size s.timestep
        sumo_map := s.sumo_map
        engine := some { spawned_objects := [0], next_id := 1 } }
    .ok ({ s with client := some client, defined_ego := true },
         { obj with metaDriveActor := some egoActor })
  else if obj.isVehicle then
    match s.client with
    | none => .error .attributeError
    | some c =>
      match c.engine with
      | none => .error .attributeError
      | some eng =>
        let actor : Actor :=
          { id := eng.next_id
            position := converted_position
            last_position := converted_position
            velocity := ⟨0, 0⟩
            speed := 0
            heading_theta := converted_heading
            angular_velocity := (0, 0, 0)
            crash_vehicle := false
            crash_object := false
            crash_sidewalk := false }
        let eng' : Engine :=
          { spawned_objects := eng.spawned_objects ++ [eng.next_id]
            next_id := eng.next_id + 1 }
        .ok ({ s with client := some { c with engine := some eng' } },
             { obj with metaDriveActor := some actor })
  else if obj.isPedestrian then
    match s.client with
    | none => .error .attributeError
    | some c =>
      match c.engine with
      | none => .error .attributeError
      | some eng =>
        let actor : Actor :=
          { id := eng.next_id
            position := converted_position
            last_position := converted_position
            velocity := ⟨0, 0⟩
            speed := 0
            heading_theta := converted_heading
            angular_velocity := (0, 0, 0)
            crash_vehicle := false
            crash_object := false
            crash_sidewalk := false }
        let eng' : Engine :=
          { spawned_objects := eng.spawned_objects ++ [eng.next_id]
            next_id := eng.next_id + 1 }
        .ok ({ s with client := some { c with engine := some eng' } },
             { obj with metaDriveActor := some actor })
  else
    .error (.simulationCreation "Unsupported object type.")

/-- A teardown call issued to the external engine by `destroy`. -/
inductive TeardownCall where
  | clearObjects (ids : List Nat)
  | close
deriving DecidableEq, Repr

/-- Modelled from the spec: `scenic.core`'s base `Simulation.destroy`
teardown hook (run by `super().destroy()`) is part of this repository but
not under `src/`; the spec assigns the host DSL's lifecycle hooks no effect
on the adapter's state, so it is modelled as the identity. -/
def base_destroy (s : SimState) : SimState :=
  s

/-- `MetaDriveSimulation.destroy`: if the client exists and its engine is
live, clear the spawned objects (when there are any) and close the session,
then run the base-class teardown.  Closing the session drops the engine
handle (`self.client.engine` is `None` afterwards — the external `close()`
contract), which the guard on the first line tests.  Returns the resulting
state and the teardown calls issued to the engine. -/
def destroy (s : SimState) : SimState × List TeardownCall :=
  match s.client with
  | none => (base_destroy s, [])
  | some c =>
    match c.engine with
    | none => (base_destroy s, [])
    | some eng =>
      let calls :=
        (if eng.spawned_objects.isEmpty then []
         else [TeardownCall.clearObjects eng.spawned_objects]) ++
        [TeardownCall.close]
      (base_destroy { s with client := some { c with engine := none } }, calls)

/-- A call issued to the external engine by `step`. -/
inductive EngineCall where
  | clientStep (a0 a1 : ℚ)
  | render
deriving DecidableEq, Repr

/-- `MetaDriveSimulation.step`: forward `[self.actions[0], self.actions[1]]`
to `self.client.step`, then render topdown when 2D rendering is on.  Python
evaluates the callee `self.client.step` before the argument list, so when
`self.client` is `None` the call raises `AttributeError` without reaching
the lookups; otherwise the dict lookups raise `KeyError` on a missing key
(index 0 is evaluated first).  The real-time sleep is wall-clock behaviour
outside the embedding. -/
def step (s : SimState) : Except SimError (SimState × List EngineCall) :=
  match s.client with
  | none => .error .attributeError
  | some _ =>
    match s.actions.lookup 0 with
    | none => .error (.keyError 0)
    | some a0 =>
      match s.actions.lookup 1 with
      | none => .error (.keyError 1)
      | some a1 =>
        .ok (s, EngineCall.clientStep a0 a1 ::
          (if s.render && !s.render3D then [EngineCall.render] else []))

/-- `MetaDriveSimulation.clip`. -/
def clip (a low high : ℚ) : ℚ :=
  min (max a low) high

/-- `MetaDriveSimulation.get_reward`, as a function of the ego object
(`self.scene.objects[0]`) and the map offset.  If the ego has no lane the
reward is `-5` immediately; otherwise the ego's actor is read (`none` models
the Python `AttributeError` were the actor reference missing), a base reward
for forward progress and lane keeping is accumulated, and the if/elif chain
applies the crash penalties or the success bonus. -/
def get_reward (ego : SceneObject) (scenic_offset : Vec2) : Option ℚ :=
  match ego.lane with
  | none => some (-5)
  | some lane =>
    match ego.metaDriveActor with
    | none => none
    | some actor =>
      let positive_road : ℚ :=
        match ego.road with
        | some road => if road.forwardLanes then 1 else -1
        | none => -1
      let last_position :=
        metadriveToScenicPosition actor.last_position scenic_offset
      let current_position :=
        metadriveToScenicPosition actor.position scenic_offset
      let lateral_now := lane.centerline.signedDistanceTo current_position
      let lane_width : ℚ := 7 / 2
      let lateral_factor := clip (1 - 2 * |lateral_now| / lane_width) 0 1
      let reward : ℚ := 0
      let reward := reward +
        2 * (current_position.x - last_position.x) * lateral_factor * positive_road
      let reward := reward + (1 / 10) * (ego.speed / 10) * positive_road
      let reward :=
        if actor.crash_vehicle then reward - 5
        else if actor.crash_object then reward - 5
        else if actor.crash_sidewalk then reward - 5
        else if ego.position.x ≥ 300 then reward + 10
        else reward
      some reward

/-- The reward accumulated by `get_reward` before the terminal if/elif
chain: the forward-progress term plus the speed term. -/
def rewardBase (ego : SceneObject) (scenic_offset : Vec2) (lane : Lane)
    (actor : Actor) : ℚ :=
  let positive_road : ℚ :=
    match ego.road with
    | some road => if road.forwardLanes then 1 else -1
    | none => -1
  let last_position := metadriveToScenicPosition actor.last_position scenic_offset
  let current_position := metadriveToScenicPosition actor.position scenic_offset
  let lateral_now := lane.centerline.signedDistanceTo current_position
  let lateral_factor := clip (1 - 2 * |lateral_now| / (7 / 2)) 0 1
  2 * (current_position.x - last_position.x) * lateral_factor * positive_road +
    (1 / 10) * (ego.speed / 10) * positive_road

/-- The terminal adjustment applied by `get_reward`'s if/elif chain, as a
function of the crash flags and the ego's x position. -/
def rewardAdjustment (actor : Actor) (egoPosX : ℚ) : ℚ :=
  if actor.crash_vehicle then -5
  else if actor.crash_object then -5
  else if actor.crash_sidewalk then -5
  else if egoPosX ≥ 300 then 10
  else 0

/-- The dictionary of values returned by `getProperties`. -/
structure PropValues where
  position : Vec2
  velocity : Vec3
  speed : ℚ
  angularSpeed : ℝ
  angularVelocity : ℚ × ℚ × ℚ
  yaw : ℝ
  pitch : ℝ
  roll : ℝ
  elevation : ℚ

/-- `MetaDriveSimulation.getProperties`: read the actor's state back.
Position is converted with `metadriveToScenicPosition` and the map offset;
the velocity is `Vector(*metaDriveActor.velocity, 0)` — the raw engine
components with a zero third coordinate; the heading is converted with
`metaDriveToScenicHeading` and pushed through the parent orientation's
`globalToLocalAngles`; `angularSpeed` is `math.hypot` of the angular
velocity; elevation is 0.  `none` models the `AttributeError` were the
actor reference missing. -/
noncomputable def getProperties (scenic_offset : Vec2) (obj : SceneObject) :
    Option PropValues :=
  match obj.metaDriveActor with
  | none => none
  | some actor =>
    let md_ang_vel := actor.angular_velocity
    let converted_heading := metaDriveToScenicHeading actor.heading_theta
    let angles := obj.parentOrientation converted_heading 0 0
    some
      { position := metadriveToScenicPosition actor.position scenic_offset
        velocity := ⟨actor.velocity.x, actor.velocity.y, 0⟩
        speed := actor.speed
        angularSpeed := Real.sqrt
          ((md_ang_vel.1 : ℝ) ^ 2 + (md_ang_vel.2.1 : ℝ) ^ 2 +
            (md_ang_vel.2.2 : ℝ) ^ 2)
        angularVelocity := md_ang_vel
        yaw := angles.1
        pitch := angles.2.1
        roll := angles.2.2
        elevation := 0 }

/-- The velocity the claim asserts `getProperties` returns, written from the
spec's words: the actor's velocity converted from the engine's frame to the
Scenic frame in the same way as the position, i.e. via
`metadriveToScenicPosition` with the map offset (then extended with a zero
third coordinate). -/
def specConvertedVelocity (v : Vec2) (scenic_offset : Vec2) : Vec3 :=
  let w := metadriveToScenicPosition v scenic_offset
  ⟨w.x, w.y, 0⟩

/-- The scenario precondition the spec states for the constructor, written
from the spec's words: the scene has zero objects, or its first object is not
a car. -/
def specSceneRejected (scene : Scene) : Bool :=
  match scene.objects with
  | [] => true
  | o :: _ => !o.isCar

/-- C1: the constructor raises `InvalidScenarioError` iff the scene has zero
objects or its first object is not a car; and whenever it succeeds the
returned state has `client = none` and no ego defined — the session is never
created by the constructor, so on the failure paths (which return before the
success state is even built) `self.client` is never initialized. -/
theorem c1_constructor_validation (scene : Scene) (render render3D : Bool)
    (scenario_number : Nat) (timestep : ℚ) (sumo_map : Option String)
    (real_time : Bool) (scenic_offset : Vec2)
    (sumo_map_boundary : Option (Vec2 × Vec2)) (film_size : Option (ℚ × ℚ)) :
    ((∃ msg, initSimulation scene render render3D scenario_number timestep
        sumo_map real_time scenic_offset sumo_map_boundary film_size =
          .error (.invalidScenario msg)) ↔ specSceneRejected scene = true) ∧
    (∀ s, initSimulation scene render render3D scenario_number timestep
        sumo_map real_time scenic_offset sumo_map_boundary film_size = .ok s →
      s.client = none ∧ s.defined_ego = false) := by
  constructor
  · cases hobjs : scene.objects with
    | nil => simp [initSimulation, specSceneRejected, hobjs]
    | cons o rest =>
      by_cases hcar : o.isCar <;>
        simp [initSimulation, specSceneRejected, hobjs, hcar]
  · intro s hs
    cases hobjs : scene.objects with
    | nil => simp [initSimulation, hobjs] at hs
    | cons o rest =>
      by_cases hcar : o.isCar <;>
        simp [initSimulation, hobjs, hcar] at hs
      exact ⟨by simp [← hs], by simp [← hs]⟩

/-! ### Concrete example states

Shared concrete inputs used by witnesses and counterexamples. -/

/-- A concrete car object (the default ego candidate). -/
noncomputable def carObjEx : SceneObject :=
  { isCar := true
    isVehicle := true
    isPedestrian := false
    position := ⟨0, 0⟩
    heading := 0
    velocity := ⟨0, 0⟩
    speed := 0
    lane := none
    road := none
    parentOrientation := fun a b c => (a, b, c)
    metaDriveActor := none }

/-- A scene containing just the example car. -/
noncomputable def sceneEx : Scene :=
  ⟨[carObjEx]⟩

/-- The state produced by the constructor on `sceneEx` with the default
timestep `1/10`, 2D rendering on, and a zero map offset. -/
noncomputable def simInitEx : SimState :=
  { scene := sceneEx
    render := true
    render3D := false
    scenario_number := 1
    defined_ego := false
    client := none
    timestep := 1 / 10
    sumo_map := none
    real_time := true
    scenic_offset := ⟨0, 0⟩
    sumo_map_boundary := none
    film_size := none
    observation := []
    actions := []
    previous_gap_platoon1 := none
    previous_gap_platoon2 := none }

/-- A concrete MetaDrive actor at rest at the origin. -/
noncomputable def actorEx : Actor :=
  { id := 0
    position := ⟨0, 0⟩
    last_position := ⟨0, 0⟩
    velocity := ⟨0, 0⟩
    speed := 0
    heading_theta := 0
    angular_velocity := (0, 0, 0)
    crash_vehicle := false
    crash_object := false
    crash_sidewalk := false }

/-- The example car holding a spawned actor reference. -/
noncomputable def carWithActorEx : SceneObject :=
  { carObjEx with metaDriveActor := some actorEx }

/-- A running simulation: ego defined, live client and engine with one
spawned object, and the scene object holding its actor reference. -/
noncomputable def simRunningEx : SimState :=
  { simInitEx with
    scene := ⟨[carWithActorEx]⟩
    defined_ego := true
    client := some
      { decision_repeat := 5
        physics_world_step_size := 1 / 50
        sumo_map := none
        engine := some { spawned_objects := [0], next_id := 1 } } }

/-- The result of spawning the ego into `simInitEx`. -/
noncomputable def c5SpawnResult : SimState × SceneObject :=
  ({ simInitEx with
      defined_ego := true
      client := some
        { decision_repeat := decision_repeat (1 / 10)
          physics_world_step_size := physics_world_step_size (1 / 10)
          sumo_map := none
          engine := some { spawned_objects := [0], next_id := 1 } } },
   { carObjEx with
      metaDriveActor := some
        { id := 0
          position := scenicToMetaDrivePosition ⟨0, 0⟩ ⟨0, 0⟩
          last_position := scenicToMetaDrivePosition ⟨0, 0⟩ ⟨0, 0⟩
          velocity := ⟨0, 0⟩
          speed := 0
          heading_theta := scenicToMetaDriveHeading 0
          angular_velocity := (0, 0, 0)
          crash_vehicle := false
          crash_object := false
          crash_sidewalk := false } })

/-- C2: Coordinate conversion round-trips: converting a position to MetaDrive
coordinates and back with the same map offset is the identity, and likewise
for headings. -/
theorem c2_conversion_round_trips :
    (∀ (p offset : Vec2),
      metadriveToScenicPosition (scenicToMetaDrivePosition p offset) offset = p) ∧
    (∀ h : ℝ, metaDriveToScenicHeading (scenicToMetaDriveHeading h) = h) := by
  constructor
  · intro p offset
    cases p
    simp [metadriveToScenicPosition, scenicToMetaDrivePosition]
  · intro h
    simp [metaDriveToScenicHeading, scenicToMetaDriveHeading]

/-- C4: For every positive timestep `t`, the derived `decision_repeat` is at
least 1, multiplying it back by `physics_world_step_size` recovers `t`
exactly, and `physics_world_step_size` never exceeds 0.02. -/
theorem c4_timestep_derivation (t : ℚ) (ht : 0 < t) :
    1 ≤ decision_repeat t ∧
    (decision_repeat t : ℚ) * physics_world_step_size t = t ∧
    physics_world_step_size t ≤ 2 / 100 := by
  have hpos : (0 : ℚ) < t / (2 / 100) := by positivity
  have hceil : 0 < decision_repeat t := by
    rw [decision_repeat]
    exact Int.ceil_pos.mpr hpos
  have hne : ((decision_repeat t : ℚ)) ≠ 0 := by
    exact_mod_cast hceil.ne'
  refine ⟨hceil, ?_, ?_⟩
  · rw [physics_world_step_size]
    field_simp
  · have hle : t / (2 / 100) ≤ (decision_repeat t : ℚ) := by
      rw [decision_repeat]
      exact_mod_cast Int.le_ceil (t / (2 / 100))
    have hdpos : (0 : ℚ) < (decision_repeat t : ℚ) := by exact_mod_cast hceil
    rw [physics_world_step_size, div_le_iff₀ hdpos]
    calc t = (t / (2 / 100)) * (2 / 100) := by ring
    _ ≤ (decision_repeat t : ℚ) * (2 / 100) := by
        exact mul_le_mul_of_nonneg_right hle (by norm_num)
    _ = 2 / 100 * (decision_repeat t : ℚ) := by ring

/-- Witness for C4 at the adapter's default timestep `t = 1/10`:
`decision_repeat = 5` and `physics_world_step_size = 1/50`. -/
theorem c4_timestep_derivation_witness :
    0 < (1 / 10 : ℚ) ∧
    (1 ≤ decision_repeat (1 / 10) ∧
      (decision_repeat (1 / 10) : ℚ) * physics_world_step_size (1 / 10) = 1 / 10 ∧
      physics_world_step_size (1 / 10) ≤ 2 / 100) :=
  ⟨by norm_num, c4_timestep_derivation (1 / 10) (by norm_num)⟩

/-- Witness for C1 at `sceneEx` (one car): the constructor succeeds and the
returned state has no client and no ego defined. -/
theorem c1_constructor_validation_witness :
    simInitEx.client = none ∧ simInitEx.defined_ego = false :=
  (c1_constructor_validation sceneEx true false 1 (1 / 10) none true ⟨0, 0⟩
    none none).2 simInitEx rfl

/-- C3 counterexample: with map offset `(3, 4)` and an actor whose engine
velocity is `(0, 0)`, `getProperties` returns velocity `(0, 0, 0)`, not the
offset-converted velocity `(3, 4, 0)` the claim asserts — the code performs
no conversion on the velocity. -/
theorem c3_counterexample :
    (getProperties ⟨3, 4⟩ carWithActorEx).map PropValues.velocity ≠
      some (specConvertedVelocity actorEx.velocity ⟨3, 4⟩) := by
  simp [getProperties, carWithActorEx, carObjEx, actorEx, specConvertedVelocity,
    metadriveToScenicPosition]

/-- C3 (amended): `getProperties` returns the actor's position converted via
`metadriveToScenicPosition` with the map offset and its heading converted via
`metaDriveToScenicHeading` (then fed through the parent orientation's
`globalToLocalAngles` to produce the yaw), but the velocity is returned as
the raw engine components with a zero third coordinate — no frame conversion
is applied to it. -/
theorem c3_amended_readback_conversion (scenic_offset : Vec2)
    (obj : SceneObject) (actor : Actor) (h : obj.metaDriveActor = some actor) :
    (getProperties scenic_offset obj).map PropValues.position =
      some (metadriveToScenicPosition actor.position scenic_offset) ∧
    (getProperties scenic_offset obj).map PropValues.velocity =
      some ⟨actor.velocity.x, actor.velocity.y, 0⟩ ∧
    (getProperties scenic_offset obj).map PropValues.yaw =
      some (obj.parentOrientation
        (metaDriveToScenicHeading actor.heading_theta) 0 0).1 := by
  simp [getProperties, h]

/-- Witness for the amended C3 at the example car and actor with offset
`(3, 4)`. -/
theorem c3_amended_readback_conversion_witness :
    (getProperties ⟨3, 4⟩ carWithActorEx).map PropValues.position =
      some (metadriveToScenicPosition actorEx.position ⟨3, 4⟩) ∧
    (getProperties ⟨3, 4⟩ carWithActorEx).map PropValues.velocity =
      some ⟨actorEx.velocity.x, actorEx.velocity.y, 0⟩ ∧
    (getProperties ⟨3, 4⟩ carWithActorEx).map PropValues.yaw =
      some (carWithActorEx.parentOrientation
        (metaDriveToScenicHeading actorEx.heading_theta) 0 0).1 :=
  c3_amended_readback_conversion ⟨3, 4⟩ carWithActorEx actorEx rfl

/-- C5 counterexample: after `destroy` on a running simulation whose single
scene object holds an actor reference, that object still holds the
reference — `destroy` never clears `obj.metaDriveActor`. -/
theorem c5_counterexample :
    (((destroy simRunningEx).1).scene.objects.map
      fun o => o.metaDriveActor.isSome) = [true] := by
  simp [destroy, base_destroy, simRunningEx, simInitEx, sceneEx,
    carWithActorEx, carObjEx]

/-- C5 (amended): every non-raising return of `createObjectInSimulator`
hands back the object with its `metaDriveActor` reference set; `destroy`
leaves the scene — and hence every object's actor reference — untouched
(it only tears down the engine session). -/
theorem c5_amended_actor_reference_lifecycle :
    (∀ (s : SimState) (obj : SceneObject) (res : SimState × SceneObject),
        createObjectInSimulator s obj = .ok res →
        res.2.metaDriveActor.isSome = true) ∧
    (∀ s : SimState, ((destroy s).1).scene = s.scene) := by
  constructor
  · intro s obj res h
    simp only [createObjectInSimulator] at h
    repeat' split at h
    all_goals first
      | exact (Except.noConfusion h)
      | (injection h with h; rw [← h]; simp)
  · intro s
    rcases hc : s.client with _ | c
    · simp [destroy, base_destroy, hc]
    · rcases he : c.engine with _ | eng <;>
        simp [destroy, base_destroy, hc, he]

/-- Witness for the amended C5: spawning the ego into `simInitEx` sets the
returned object's actor reference, and `destroy` on the running example
leaves its scene unchanged. -/
theorem c5_amended_actor_reference_lifecycle_witness :
    c5SpawnResult.2.metaDriveActor.isSome = true ∧
    ((destroy simRunningEx).1).scene = simRunningEx.scene :=
  ⟨c5_amended_actor_reference_lifecycle.1 simInitEx carObjEx c5SpawnResult rfl,
   c5_amended_actor_reference_lifecycle.2 simRunningEx⟩

/-- C6 counterexample: on the reachable state right after the constructor
and the ego spawn — the session is live (`client` is set) but the action
store is still the empty dict, which nothing in the adapter ever writes —
`step` reaches the dict lookups and fails with a `KeyError` on index 0
instead of forwarding a command. -/
theorem c6_counterexample :
    initSimulation sceneEx true false 1 (1 / 10) none true ⟨0, 0⟩ none none =
      .ok simInitEx ∧
    createObjectInSimulator simInitEx carObjEx = .ok c5SpawnResult ∧
    (c5SpawnResult.1).client.isSome = true ∧
    step c5SpawnResult.1 = .error (.keyError 0) :=
  ⟨rfl, rfl, rfl, rfl⟩

/-- C6 (amended): `step` succeeds exactly when the client is present (its
`step` attribute is resolved before the argument list, raising
`AttributeError` when `self.client` is `None`) and the action store contains
entries for indices 0 and 1; when all three hold it forwards precisely
`[self.actions[0], self.actions[1]]` to the engine's stepping call.  The
adapter initializes the store empty and never writes it, so success depends
on an external writer. -/
theorem c6_amended_step_forwarding (s : SimState) :
    ((step s).isOk = true ↔
      s.client.isSome = true ∧
      (s.actions.lookup 0).isSome = true ∧ (s.actions.lookup 1).isSome = true) ∧
    (∀ c a0 a1, s.client = some c → s.actions.lookup 0 = some a0 →
      s.actions.lookup 1 = some a1 →
      step s = .ok (s, EngineCall.clientStep a0 a1 ::
        (if s.render && !s.render3D then [EngineCall.render] else []))) := by
  constructor
  · rcases hc : s.client with _ | c <;>
      rcases h0 : s.actions.lookup 0 with _ | a0 <;>
        rcases h1 : s.actions.lookup 1 with _ | a1 <;>
          simp [step, hc, h0, h1, Except.isOk, Except.toBool]
  · intro c a0 a1 hc h0 h1
    simp [step, hc, h0, h1]

/-- Witness for the amended C6: on the running example with the action store
holding `1/2` at index 0 and `0` at index 1, `step` forwards exactly that
command (and renders, since 2D rendering is on). -/
theorem c6_amended_step_forwarding_witness :
    step { simRunningEx with actions := [(0, 1 / 2), (1, 0)] } =
      .ok ({ simRunningEx with actions := [(0, 1 / 2), (1, 0)] },
        [EngineCall.clientStep (1 / 2) 0, EngineCall.render]) :=
  (c6_amended_step_forwarding
    { simRunningEx with actions := [(0, 1 / 2), (1, 0)] }).2
    { decision_repeat := 5
      physics_world_step_size := 1 / 50
      sumo_map := none
      engine := some { spawned_objects := [0], next_id := 1 } }
    (1 / 2) 0 rfl rfl rfl

/-- C7: `destroy` is idempotent: a second `destroy` immediately after a
completed one returns the state unchanged and issues no teardown calls to
the engine (the first `destroy` either found no live client/engine, or
closed the session, dropping the engine handle that the guard tests). -/
theorem c7_destroy_idempotent (s : SimState) :
    destroy (destroy s).1 = ((destroy s).1, ([] : List TeardownCall)) := by
  rcases hc : s.client with _ | c
  · simp [destroy, base_destroy, hc]
  · rcases he : c.engine with _ | eng <;>
      simp [destroy, base_destroy, hc, he]

/-- The outcome of the Python import machinery for the six `metadrive`
imports at the top of the module; whether they succeed depends on the
environment, abstracted as a flag. -/
inductive ImportOutcome where
  | ok
  | importFailure (msg : String)
deriving DecidableEq, Repr

/-- The bare import attempt (lines 3–9): succeeds when the dependency is
available, otherwise raises `ImportError`. -/
def metadriveImports (available : Bool) : ImportOutcome :=
  if available then .ok else .importFailure "No module named metadrive"

/-- The module import guard (lines 3–13): any `ImportError` from the
`metadrive` imports is caught and re-raised as a `ModuleNotFoundError`
describing how to install the required package. -/
def importSimulatorModule (available : Bool) : Except SimError Unit :=
  match metadriveImports available with
  | .ok => .ok ()
  | .importFailure _ =>
    .error (.moduleNotFound
      "Metadrive is required. Please install the 'metadrive-simulator' package (and sumolib) or use scenic[metadrive].")

/-- C8: if the dependency is missing the module import raises a
`ModuleNotFoundError` whose message tells the user to install the
`metadrive-simulator` package; the bare `ImportError` is never propagated;
and when the dependency is present the import succeeds. -/
theorem c8_import_guard (available : Bool) :
    (available = false → importSimulatorModule available =
      .error (.moduleNotFound
        "Metadrive is required. Please install the 'metadrive-simulator' package (and sumolib) or use scenic[metadrive].")) ∧
    (∀ msg, importSimulatorModule available ≠ .error (.importError msg)) ∧
    (available = true → importSimulatorModule available = .ok ()) := by
  cases available <;> simp [importSimulatorModule, metadriveImports]

/-- Witness for C8 with the dependency missing: the descriptive
`ModuleNotFoundError` is raised. -/
theorem c8_import_guard_witness :
    importSimulatorModule false =
      .error (.moduleNotFound
        "Metadrive is required. Please install the 'metadrive-simulator' package (and sumolib) or use scenic[metadrive].") :=
  (c8_import_guard false).1 rfl

/-- C9: whenever the ego's lane is `None`, `get_reward` returns exactly
`-5`; the quantification over every other component of the ego (position,
speed, crash flags, actor state) captures that no further ego state is
read. -/
theorem c9_no_lane_reward (ego : SceneObject) (scenic_offset : Vec2)
    (h : ego.lane = none) :
    get_reward ego scenic_offset = some (-5) := by
  simp [get_reward, h]

/-- Witness for C9: a laneless ego far past `x = 300` whose actor has a
crash flag set still yields exactly `-5`. -/
theorem c9_no_lane_reward_witness :
    get_reward
      { carObjEx with
          lane := none
          position := ⟨400, 0⟩
          metaDriveActor := some { actorEx with crash_vehicle := true } }
      ⟨0, 0⟩ = some (-5) :=
  c9_no_lane_reward
    { carObjEx with
        lane := none
        position := ⟨400, 0⟩
        metaDriveActor := some { actorEx with crash_vehicle := true } }
    ⟨0, 0⟩ rfl

/-- C10: when the ego has a lane and an actor, `get_reward` is the base
(progress + speed) reward plus a single terminal adjustment; the adjustment
is `-5` whenever any crash flag is set (so crash penalties take precedence
over the success bonus and at most one of the four adjustments applies),
`+10` exactly when no crash flag is set and `ego.position.x ≥ 300`, and `0`
when no crash flag is set and `ego.position.x < 300`. -/
theorem c10_terminal_adjustments (ego : SceneObject) (scenic_offset : Vec2)
    (lane : Lane) (actor : Actor) (hlane : ego.lane = some lane)
    (hactor : ego.metaDriveActor = some actor) :
    get_reward ego scenic_offset =
      some (rewardBase ego scenic_offset lane actor +
        rewardAdjustment actor ego.position.x) ∧
    ((actor.crash_vehicle = true ∨ actor.crash_object = true ∨
        actor.crash_sidewalk = true) →
      rewardAdjustment actor ego.position.x = -5) ∧
    ((actor.crash_vehicle = false ∧ actor.crash_object = false ∧
        actor.crash_sidewalk = false ∧ ego.position.x ≥ 300) →
      rewardAdjustment actor ego.position.x = 10) ∧
    ((actor.crash_vehicle = false ∧ actor.crash_object = false ∧
        actor.crash_sidewalk = false ∧ ego.position.x < 300) →
      rewardAdjustment actor ego.position.x = 0) := by
  refine ⟨?_, ?_, ?_, ?_⟩
  · rcases hv : actor.crash_vehicle <;> rcases ho : actor.crash_object <;>
      rcases hs : actor.crash_sidewalk <;>
        by_cases hx : ego.position.x ≥ 300 <;>
          simp [get_reward, hlane, hactor, rewardBase, rewardAdjustment,
            hv, ho, hs, hx] <;> ring
  · rintro (hv | ho | hs)
    · simp [rewardAdjustment, hv]
    · rcases hv : actor.crash_vehicle <;> simp [rewardAdjustment, hv, ho]
    · rcases hv : actor.crash_vehicle <;> rcases ho : actor.crash_object <;>
        simp [rewardAdjustment, hv, ho, hs]
  · rintro ⟨hv, ho, hs, hx⟩
    simp [rewardAdjustment, hv, ho, hs, hx]
  · rintro ⟨hv, ho, hs, hx⟩
    simp [rewardAdjustment, hv, ho, hs, not_le.mpr hx]

/-- Witness for C10: an ego past `x = 300` whose actor has `crash_vehicle`
set gets the `-5` adjustment, demonstrating the crash penalty overriding
the success bonus. -/
theorem c10_terminal_adjustments_witness :
    get_reward
      { carObjEx with
          lane := some ⟨⟨fun _ => 0⟩⟩
          position := ⟨400, 0⟩
          metaDriveActor := some { actorEx with crash_vehicle := true } }
      ⟨0, 0⟩ =
      some (rewardBase
        { carObjEx with
            lane := some ⟨⟨fun _ => 0⟩⟩
            position := ⟨400, 0⟩
            metaDriveActor := some { actorEx with crash_vehicle := true } }
        ⟨0, 0⟩ ⟨⟨fun _ => 0⟩⟩ { actorEx with crash_vehicle := true } +
        rewardAdjustment { actorEx with crash_vehicle := true } 400) ∧
    rewardAdjustment { actorEx with crash_vehicle := true } 400 = -5 :=
  ⟨(c10_terminal_adjustments
      { carObjEx with
          lane := some ⟨⟨fun _ => 0⟩⟩
          position := ⟨400, 0⟩
          metaDriveActor := some { actorEx with crash_vehicle := true } }
      ⟨0, 0⟩ ⟨⟨fun _ => 0⟩⟩ { actorEx with crash_vehicle := true } rfl rfl).1,
   (c10_terminal_adjustments
      { carObjEx with
          lane := some ⟨⟨fun _ => 0⟩⟩
          position := ⟨400, 0⟩
          metaDriveActor := some { actorEx with crash_vehicle := true } }
      ⟨0, 0⟩ ⟨⟨fun _ => 0⟩⟩ { actorEx with crash_vehicle := true } rfl rfl).2.1
    (Or.inl rfl)⟩

end ScenicMetaDrive
